import Mathlib

/-!
Shallow embedding of the playsms_hilink_driver repository
(src/lib_usb_modem.py, src/playsms_hilink_driver.py).

Modem HTTP exchanges are modelled as oracle inputs: each HTTP call's
outcome is supplied as `Except PyErr Xml`, meaning the XML body already
parsed by xmltodict, or the exception raised by the transport
(requests) or by the XML parser (expat).  Everything after the parse is
embedded faithfully from the Python source.
-/

/-- Errors raised by the Python runtime or libraries in the source code.
`expatError` is the parse error xmltodict raises on malformed XML;
`connectionError` is a requests transport failure; the others are the
builtin Python exceptions raised by dict/attribute access and by
`str.encode('latin1')`. -/
inductive PyErr where
  | expatError
  | connectionError
  | attributeError
  | keyError
  | typeError
  | unicodeEncodeError
deriving DecidableEq, Repr

/-- A parsed XML document as produced by `xmltodict.parse`: nested
ordered dicts, strings for text content, `null` for empty elements
(Python `None`), and lists for repeated elements. -/
inductive Xml where
  | str (s : String)
  | null
  | dict (fields : List (String × Xml))
  | list (items : List Xml)

/-- Python `x == someString` as it appears in the source (`==` between a
parsed XML value and a string literal): true exactly when the value is
that string. -/
def pyEqStr (x : Xml) (s : String) : Bool :=
  match x with
  | .str a => a = s
  | _ => false

/-- First-match association lookup in a dict's field list (Python dict
keys are unique, so first match is the match). -/
def xmlAssoc : List (String × Xml) → String → Option Xml
  | [], _ => none
  | (k, v) :: rest, key => if k = key then some v else xmlAssoc rest key

/-- Python `d.get(key, None)` observed through `is None`: both an absent
key and a key mapped to `None` give Python `None`, collapsed to `none`
here. -/
def optField (fields : List (String × Xml)) (key : String) : Option Xml :=
  match xmlAssoc fields key with
  | some Xml.null => none
  | r => r

/-- Python `x.get(key, None)`: dicts return the value (or None), every
other value in play (None, str, list) has no `.get` attribute and
raises AttributeError. -/
def pyGetOpt (x : Xml) (key : String) : Except PyErr (Option Xml) :=
  match x with
  | .dict fields => .ok (optField fields key)
  | _ => .error .attributeError

/-- Python `x[key]` with a string key: dicts raise KeyError when the key
is absent; None, str and list values raise TypeError for a string
subscript. -/
def pyIndex (x : Xml) (key : String) : Except PyErr Xml :=
  match x with
  | .dict fields =>
      match xmlAssoc fields key with
      | some v => .ok v
      | none => .error .keyError
  | _ => .error .typeError

/-- Boolean substring test on character lists, used to model Python's
`needle in haystackString`. -/
def charSub (p : List Char) : List Char → Bool
  | [] => p.isEmpty
  | c :: rest => p.isPrefixOf (c :: rest) || charSub p rest

/-- Python `key in x`: key-presence test on dicts (a key mapped to None
still counts as present), substring test on strings, element test on
lists, TypeError on None. -/
def pyContains (x : Xml) (key : String) : Except PyErr Bool :=
  match x with
  | .dict fields => .ok (xmlAssoc fields key).isSome
  | .str s => .ok (charSub key.data s.data)
  | .list items => .ok (items.any (fun i => pyEqStr i key))
  | .null => .error .typeError

/-- USB_modem.b_get_session (src/lib_usb_modem.py lines 176-184), which
is letter for letter the driver's USB_modem.get_session
(src/playsms_hilink_driver.py lines 173-181).  `resp` is the outcome of
fetching and parsing /api/webserver/SesTokInfo.  The code does
`parse(text).get('response', None)` and then `.get("SesInfo")` /
`.get("TokInfo")` on the result, returning the pair; when the
`response` key is absent the second `.get` is called on `None` and
raises AttributeError; an absent SesInfo or TokInfo simply yields
`None` in the returned pair. -/
def b_get_session (resp : Except PyErr Xml) : Except PyErr (Option Xml × Option Xml) := do
  let x ← resp
  match x with
  | .dict fields =>
      match optField fields "response" with
      | none => .error .attributeError
      | some r => do
          let ses ← pyGetOpt r "SesInfo"
          let tok ← pyGetOpt r "TokInfo"
          return (ses, tok)
  | _ => .error .attributeError

/-- Python `text.encode('latin1')`: each character whose code point is
at most 255 becomes one byte; any larger code point raises
UnicodeEncodeError. -/
def latin1Encode (s : String) : Except PyErr (List Nat) :=
  if s.data.all (fun c => c.toNat < 256) then
    .ok (s.data.map (fun c => c.toNat))
  else .error .unicodeEncodeError

/-- Whether a byte is a UTF-8 continuation byte (10xxxxxx). -/
def isCont (b : Nat) : Bool := 128 ≤ b && b ≤ 191

/-- Valid range of the first continuation byte after a three-byte lead:
0xE0 forbids overlong encodings, 0xED forbids surrogates. -/
def cont3ok (b b2 : Nat) : Bool :=
  if b = 224 then 160 ≤ b2 && b2 ≤ 191
  else if b = 237 then 128 ≤ b2 && b2 ≤ 159
  else isCont b2

/-- Valid range of the first continuation byte after a four-byte lead:
0xF0 forbids overlong encodings, 0xF4 caps code points at U+10FFFF. -/
def cont4ok (b b2 : Nat) : Bool :=
  if b = 240 then 144 ≤ b2 && b2 ≤ 191
  else if b = 244 then 128 ≤ b2 && b2 ≤ 143
  else isCont b2

/-- Classification of a byte in start position: an emitted ASCII char,
or the decoder state `(need, lead, acc)` opened by a multi-byte lead
(`need` continuation bytes still expected, accumulated bits `acc`), or
nothing for an invalid start byte (dropped by the ignore handler). -/
def utf8Start (b : Nat) : Option Char × Option (Nat × Nat × Nat) :=
  if b < 128 then (some (Char.ofNat b), none)
  else if b < 194 then (none, none)
  else if b < 224 then (none, some (1, b, b - 192))
  else if b < 240 then (none, some (2, b, b - 224))
  else if b < 245 then (none, some (3, b, b - 240))
  else (none, none)

/-- Whether byte `b` is acceptable as the next continuation byte in
state `(need, lead, _)`: the first continuation after a three- or
four-byte lead has a restricted range, later ones are plain
continuation bytes. -/
def contOk (lead need b : Nat) : Bool :=
  if 224 ≤ lead && lead < 240 && need == 2 then cont3ok lead b
  else if 240 ≤ lead && need == 3 then cont4ok lead b
  else isCont b

/-- Python `bytes.decode('utf8', 'ignore')`, as a single pass over the
bytes: invalid sequences are dropped (on an invalid byte the pending
partial sequence is discarded and the byte is reconsidered in start
position, matching the standard decoder's maximal-subpart errors); a
truncated final sequence is likewise dropped. -/
def utf8Loop : List Nat → Option (Nat × Nat × Nat) → List Char
  | [], _ => []
  | b :: rest, none =>
      match utf8Start b with
      | (some c, st) => c :: utf8Loop rest st
      | (none, st) => utf8Loop rest st
  | b :: rest, some (need, lead, acc) =>
      if contOk lead need b then
        if need = 1 then Char.ofNat (acc * 64 + (b - 128)) :: utf8Loop rest none
        else utf8Loop rest (some (need - 1, lead, acc * 64 + (b - 128)))
      else
        match utf8Start b with
        | (some c, st) => c :: utf8Loop rest st
        | (none, st) => utf8Loop rest st

/-- Python `bytes.decode('utf8', 'ignore')`. -/
def utf8DecodeIgnore (bs : List Nat) : List Char := utf8Loop bs none

/-- A message record as built by the listing code: an AttrDict holding
the four attributes copied from the parsed XML message element. -/
structure Msg where
  Index : Xml
  Phone : Xml
  SmsType : Xml
  Content : Xml

/-- The per-message content clean-up in b_get_sms_list
(src/lib_usb_modem.py lines 236-238): a None content becomes a single
space, then `content.encode('latin1').decode('utf8', 'ignore')`; a
content that is neither None nor a string has no `.encode` attribute
and raises AttributeError. -/
def fixContent (c : Xml) : Except PyErr Xml :=
  match (match c with | .null => Xml.str " " | other => other) with
  | .str s => do
      let bs ← latin1Encode s
      return .str (String.mk (utf8DecodeIgnore bs))
  | _ => .error .attributeError

/-- The per-message body of the listing loop (src/lib_usb_modem.py
lines 231-239 and src/playsms_hilink_driver.py lines 220-225): test
`message['SmsType'] == '1'`; when it holds, copy the four attributes
(a missing one raises KeyError); `fixEnc` selects between the two
variants in the repository: lib_usb_modem.py (true) additionally
normalizes the content, the driver file (false) copies it untouched.
Returns `none` for a filtered-out message. -/
def b_extract (fixEnc : Bool) (m : Xml) : Except PyErr (Option Msg) := do
  let t ← pyIndex m "SmsType"
  if pyEqStr t "1" then do
    let idx ← pyIndex m "Index"
    let ph ← pyIndex m "Phone"
    let c ← pyIndex m "Content"
    if fixEnc then do
      let c2 ← fixContent c
      return some ⟨idx, ph, t, c2⟩
    else
      return some ⟨idx, ph, t, c⟩
  else
    return none

/-- The listing loop over the message list: exceptions abort the loop
and propagate, filtered messages are skipped, the rest are appended in
order. -/
def extract_list (fixEnc : Bool) : List Xml → Except PyErr (List Msg)
  | [] => .ok []
  | m :: rest => do
      let o ← b_extract fixEnc m
      let tail ← extract_list fixEnc rest
      match o with
      | some msg => .ok (msg :: tail)
      | none => .ok tail

/-- Shared body of USB_modem.b_get_sms_list (src/lib_usb_modem.py lines
187-242) and of the driver's USB_modem.get_sms_list
(src/playsms_hilink_driver.py lines 184-226); the two differ only in
the content clean-up (`fixEnc`).  `sessionResp` is the outcome of the
session-token exchange, `listResp` the outcome of posting to
/api/sms/sms-list and parsing the reply.  The code reads
`data['response']`, tests `'Messages' in` it, reads `['Messages']`,
skips a None value, reads `['Message']`, wraps a non-list value in a
one-element list, and runs the extraction loop. -/
def get_sms_list_core (fixEnc : Bool) (sessionResp listResp : Except PyErr Xml) :
    Except PyErr (List Msg) := do
  let _ ← b_get_session sessionResp
  let data ← listResp
  let resp ← pyIndex data "response"
  let hasMsgs ← pyContains resp "Messages"
  if hasMsgs then do
    let messages ← pyIndex resp "Messages"
    match messages with
    | .null => return []
    | other => do
        let ml ← pyIndex other "Message"
        let message_list := match ml with | .list xs => xs | x => [x]
        extract_list fixEnc message_list
  else
    return []

/-- USB_modem.b_get_sms_list of src/lib_usb_modem.py (content clean-up
included). -/
def b_get_sms_list (sessionResp listResp : Except PyErr Xml) : Except PyErr (List Msg) :=
  get_sms_list_core true sessionResp listResp

/-- USB_modem.get_sms_list of src/playsms_hilink_driver.py (the inbox
poller's listing path; no content clean-up). -/
def get_sms_list (sessionResp listResp : Except PyErr Xml) : Except PyErr (List Msg) :=
  get_sms_list_core false sessionResp listResp

/-- USB_modem.b_delete_sms (src/lib_usb_modem.py lines 245-263) and the
driver's USB_modem.delete_sms (src/playsms_hilink_driver.py lines
229-247): fetch a session, post to /api/sms/delete-sms, parse and
return the reply.  There is no exception handler: a transport or parse
failure propagates to the caller. -/
def b_delete_sms (sessionResp deleteResp : Except PyErr Xml) : Except PyErr Xml := do
  let _ ← b_get_session sessionResp
  let data ← deleteResp
  return data

/-- A session-token response with both fields present, used as a
concrete well-formed oracle value in several statements. -/
def goodSess : Except PyErr Xml :=
  .ok (Xml.dict [("response", Xml.dict [("SesInfo", Xml.str "c"), ("TokInfo", Xml.str "t")])])

/-- A sms-list response whose Messages element holds `x` under the
Message key. -/
def mkListResp (x : Xml) : Xml :=
  Xml.dict [("response", Xml.dict [("Count", Xml.str "1"), ("Messages", Xml.dict [("Message", x)])])]

/-- A message element with the four attributes the code copies. -/
def mkMsgXml (idx ph tp content : Xml) : Xml :=
  Xml.dict [("Smstat", Xml.str "3"), ("Index", idx), ("Phone", ph),
            ("SmsType", tp), ("Content", content)]

/-- A Python value, to record that the worker's send result is either
the integer sentinel `res.index = -1` or a value taken verbatim from
the parsed XML (`messages[0].Index`). -/
inductive PyVal where
  | int (z : Int)
  | xmlv (x : Xml)

/-- Observable events of the worker's send branch: the sleep(1) calls,
the successive outbox listings (numbered), the send post, the delete of
an outbox entry, and the two log statements of lines 150 and 155. -/
inductive Ev where
  | sleep (secs : Nat)
  | listOutbox (n : Nat)
  | sendCmd
  | deleteSms (idx : Xml)
  | logWarning
  | logError

/-- Oracle for the modem exchanges of the send branch: the outcome of
b_send_sms, the outcome of the n-th post-send outbox listing, and the
outcome of the final delete. -/
structure SendOracle where
  sendRes : Except PyErr Unit
  listing : Nat → Except PyErr (List Msg)
  deleteRes : Except PyErr Unit

/-- The polling loop `for i in range(0,5): time.sleep(1); messages =
self.b_get_sms_list(outbox=True)` (src/lib_usb_modem.py lines
143-145), generalized over the remaining iteration count `k`, the next
attempt number `i` and the current value of the `messages` variable.
Returns the event trace and the final value of `messages`; an
exception in a listing aborts the loop and propagates. -/
def pollSteps (listing : Nat → Except PyErr (List Msg)) :
    Nat → Nat → List Msg → List Ev × Except PyErr (List Msg)
  | 0, _, prev => ([], .ok prev)
  | k + 1, i, _ =>
      match listing i with
      | .error e => ([Ev.sleep 1, Ev.listOutbox i], .error e)
      | .ok msgs =>
          let r := pollSteps listing k (i + 1) msgs
          (Ev.sleep 1 :: Ev.listOutbox i :: r.1, r.2)

/-- The send-resolution step of the worker's send_sms branch
(src/lib_usb_modem.py lines 136-157): `res.index = -1`, issue
b_send_sms, run the five-attempt polling loop, then inspect the final
`messages`: non-empty takes `messages[0].Index`, warns when more than
one entry is present, and deletes that first entry; empty logs an
error and leaves the -1 sentinel.  Exceptions from any modem exchange
propagate (the worker has no handler). -/
def send_resolve (o : SendOracle) : List Ev × Except PyErr PyVal :=
  match o.sendRes with
  | .error e => ([Ev.sendCmd], .error e)
  | .ok _ =>
      let p := pollSteps o.listing 5 0 []
      match p.2 with
      | .error e => (Ev.sendCmd :: p.1, .error e)
      | .ok messages =>
          match messages with
          | [] => (Ev.sendCmd :: p.1 ++ [Ev.logError], .ok (PyVal.int (-1)))
          | m :: rest =>
              let warn := if rest.length > 0 then [Ev.logWarning] else []
              match o.deleteRes with
              | .error e => (Ev.sendCmd :: p.1 ++ warn ++ [Ev.deleteSms m.Index], .error e)
              | .ok _ => (Ev.sendCmd :: p.1 ++ warn ++ [Ev.deleteSms m.Index], .ok (PyVal.xmlv m.Index))

/-- The tagged task variants put on the worker's queue
(src/lib_usb_modem.py lines 111-173). -/
inductive TaskAction where
  | list_received
  | list_sent
  | send (numbers : List String) (text : String)
  | receive
  | delete (idx : PyVal)
  | stop
  | unknown (s : String)

/-- A reply object put on the result queue. -/
inductive TaskRes where
  | msgs (ms : List Msg)
  | sentIndex (v : PyVal)
  | ack

/-- How a run of the worker loop over a finite submitted task list
ends: the queue was drained (the real loop then blocks for the next
task), a stop task ended it, or an uncaught exception killed the
process. -/
inductive WorkerEnd where
  | drained
  | stopped
  | crashed (e : PyErr)

/-- The dispatch loop of USB_modem.background_worker
(src/lib_usb_modem.py lines 111-173), run over the finite list of
submitted tasks; the k-th modem-facing task body's outcome (its modem
event trace and its reply or raised exception) is supplied by `exec`
(the bodies themselves are embedded above: b_get_sms_list,
send_resolve, b_delete_sms).  The loop body has no try/except: an
exception from a task body propagates out of background_worker and the
process dies.  A stop task posts its reply and returns; a receive task
posts a bare reply; an unknown action only prints.  Returns the
sequence of replies posted to the result queue, the concatenated modem
event trace, and how the run ended. -/
def background_worker (exec : Nat → TaskAction → List Ev × Except PyErr TaskRes) :
    List TaskAction → Nat → List TaskRes × List Ev × WorkerEnd
  | [], _ => ([], [], .drained)
  | t :: ts, k =>
      match t with
      | .stop => ([TaskRes.ack], [], .stopped)
      | .receive =>
          let r := background_worker exec ts (k + 1)
          (TaskRes.ack :: r.1, r.2.1, r.2.2)
      | .unknown _ => background_worker exec ts (k + 1)
      | other =>
          match exec k other with
          | (trc, .error e) => ([], trc, .crashed e)
          | (trc, .ok val) =>
              let r := background_worker exec ts (k + 1)
              (val :: r.1, trc ++ r.2.1, r.2.2)

/-- Modem-facing task actions: the four that run a modem exchange in
the worker. -/
def isModemTask : TaskAction → Bool
  | .list_received => true
  | .list_sent => true
  | .send _ _ => true
  | .delete _ => true
  | _ => false

/-- Observable events of the inbox-polling thread
(src/playsms_hilink_driver.py lines 250-261): the inbound listing, the
forwarding call to playsms carrying the message's Index, Phone and
Content (PlaySMS.insert_sms_into_playsms, lines 134-148), the delete,
and the sleep(10). -/
inductive PEv where
  | listInbox
  | forwardSms (id fromN text : Xml)
  | deleteSms (idx : Xml)
  | sleep (secs : Nat)

/-- Oracle for the poller's external exchanges in cycle `c`: the
listing outcome, and per message position `j` the outcome of the
forwarding HTTP call (the platform's response text, unused by the
code) and of the delete. -/
structure PollOracle where
  listing : Nat → Except PyErr (List Msg)
  fwd : Nat → Nat → Except PyErr String
  del : Nat → Nat → Except PyErr Xml

/-- The per-message loop of poll_receive_sms: forward to playsms, then
delete, for each listed message in order; an exception from either
call kills the polling thread (no handler). -/
def poll_msgs (fwd : Nat → Except PyErr String) (del : Nat → Except PyErr Xml) :
    List Msg → Nat → List PEv × Option PyErr
  | [], _ => ([], none)
  | m :: rest, j =>
      let fev := PEv.forwardSms m.Index m.Phone m.Content
      match fwd j with
      | .error e => ([fev], some e)
      | .ok _ =>
          match del j with
          | .error e => ([fev, PEv.deleteSms m.Index], some e)
          | .ok _ =>
              let r := poll_msgs fwd del rest (j + 1)
              (fev :: PEv.deleteSms m.Index :: r.1, r.2)

/-- USB_modem.poll_receive_sms (src/playsms_hilink_driver.py lines
250-261), run for `fuel` cycles starting at cycle `c`: each cycle
lists the inbox, forwards and deletes each message, then sleeps 10
seconds.  Returns the event trace and the exception that killed the
thread, if any. -/
def poll_receive_sms (o : PollOracle) : Nat → Nat → List PEv × Option PyErr
  | 0, _ => ([], none)
  | fuel + 1, c =>
      match o.listing c with
      | .error e => ([PEv.listInbox], some e)
      | .ok msgs =>
          let pr := poll_msgs (o.fwd c) (o.del c) msgs 0
          match pr.2 with
          | some e => (PEv.listInbox :: pr.1, some e)
          | none =>
              let r := poll_receive_sms o fuel (c + 1)
              (PEv.listInbox :: pr.1 ++ PEv.sleep 10 :: r.1, r.2)

/-- The two caller-side threads of src/playsms_hilink_driver.py: the
HTTP request handler threads of the ThreadingMixIn server (whose
do_GET calls usb_modem.send_sms directly, lines 338-348) and the
poll_receive_sms daemon thread (lines 167-170, 250-261). -/
inductive ThreadId where
  | httpHandler
  | inboxPoller
deriving DecidableEq

/-- The modem HTTP endpoints hit by those threads. -/
inductive ModemCall where
  | sesTokGet
  | smsListPost
  | sendSmsPost
  | deleteSmsPost
deriving DecidableEq

/-- One modem HTTP request, tagged with the issuing thread. -/
structure TEv where
  thread : ThreadId
  call : ModemCall
deriving DecidableEq

/-- Fueled enumeration of the interleavings of two event sequences.
The driver file creates the poller with plain threading.Thread and
serves HTTP with ThreadingMixIn, and its USB_modem methods take no
lock and use no queue, so every interleaving of the two threads' modem
requests is reachable. -/
def interAux : Nat → List TEv → List TEv → List (List TEv)
  | _, [], ys => [ys]
  | _, x :: xs, [] => [x :: xs]
  | 0, xs, ys => [xs ++ ys]
  | n + 1, x :: xs, y :: ys =>
      (interAux n xs (y :: ys)).map (fun t => x :: t) ++
      (interAux n (x :: xs) ys).map (fun t => y :: t)

/-- All interleavings of two threads' event sequences (the fuel, fixed
to the total length, only drives the recursion). -/
def interleavings (xs ys : List TEv) : List (List TEv) :=
  interAux (xs.length + ys.length) xs ys

/-- The modem requests of one driver-side USB_modem.send_sms call
(src/playsms_hilink_driver.py lines 264-292): the get_session GET,
then the send-sms POST. -/
def driver_send_calls : List TEv :=
  [⟨ThreadId.httpHandler, ModemCall.sesTokGet⟩, ⟨ThreadId.httpHandler, ModemCall.sendSmsPost⟩]

/-- The modem requests of one driver-side USB_modem.delete_sms call
issued by the poller (src/playsms_hilink_driver.py lines 229-247): the
get_session GET, then the delete-sms POST. -/
def poller_delete_calls : List TEv :=
  [⟨ThreadId.inboxPoller, ModemCall.sesTokGet⟩, ⟨ThreadId.inboxPoller, ModemCall.deleteSmsPost⟩]

/-- The reachable modem-request traces when an HTTP handler thread runs
a send while the poller thread runs a delete. -/
def driver_concurrent_traces : List (List TEv) :=
  interleavings driver_send_calls poller_delete_calls

/-- Whether a trace of those two operations keeps them mutually
exclusive: one runs to completion before the other starts. -/
def serializedTrace (t : List TEv) : Bool :=
  t = driver_send_calls ++ poller_delete_calls ||
  t = poller_delete_calls ++ driver_send_calls

/-- The value a message element contributes to a listing result: the
extracted record, or nothing when filtered out (meaningful when the
extraction does not raise). -/
def extractVal (fixEnc : Bool) (m : Xml) : Option Msg :=
  match b_extract fixEnc m with
  | .ok o => o
  | .error _ => none

/-- Concrete message record used in closed statements. -/
def msgA : Msg := ⟨Xml.str "40001", Xml.str "0722060322", Xml.str "1", Xml.str "hello"⟩

/-- Concrete post-send listing schedule: the outbox is empty until the
sent message appears at the fifth attempt. -/
def msOne : Nat → List Msg := fun i => if i < 4 then [] else [msgA]

/-- Concrete send oracle whose final listing holds one entry. -/
def oOne : SendOracle := ⟨.ok (), fun i => .ok (msOne i), .ok ()⟩

/-- Constantly-empty listing schedule. -/
def msNone : Nat → List Msg := fun _ => []

/-- Concrete send oracle whose outbox stays empty. -/
def oNone : SendOracle := ⟨.ok (), fun i => .ok (msNone i), .ok ()⟩

/-- Task-body oracle whose first task raises a transport error and
whose later tasks succeed. -/
def execFail : Nat → TaskAction → List Ev × Except PyErr TaskRes :=
  fun k _ => ([], if k = 0 then .error .connectionError else .ok (TaskRes.msgs []))

/-- Task-body oracle that always succeeds with an empty listing. -/
def execOk : Nat → TaskAction → List Ev × Except PyErr TaskRes :=
  fun k _ => ([Ev.listOutbox k], .ok (TaskRes.msgs []))

/-- Concrete poller oracle: one inbound message each cycle, forwarding
and deleting succeed. -/
def pOracle : PollOracle :=
  ⟨fun _ => .ok [msgA], fun _ _ => .ok "OK", fun _ _ => .ok (Xml.str "OK")⟩

/-- The five-attempt polling trace: sleep one second, then list the
outbox, five times. -/
def pollTrace5 : List Ev :=
  [Ev.sleep 1, Ev.listOutbox 0, Ev.sleep 1, Ev.listOutbox 1, Ev.sleep 1, Ev.listOutbox 2,
   Ev.sleep 1, Ev.listOutbox 3, Ev.sleep 1, Ev.listOutbox 4]

/-! Helper lemmas (shared; none of them is a claim's theorem). -/

/-- Computation of the five-attempt polling loop when every listing
returns. -/
theorem pollSteps_five (listing : Nat → Except PyErr (List Msg)) (ms : Nat → List Msg)
    (h : ∀ i, i < 5 → listing i = .ok (ms i)) :
    pollSteps listing 5 0 [] = (pollTrace5, .ok (ms 4)) := by
  have h0 := h 0 (by omega)
  have h1 := h 1 (by omega)
  have h2 := h 2 (by omega)
  have h3 := h 3 (by omega)
  have h4 := h 4 (by omega)
  simp [pollSteps, h0, h1, h2, h3, h4, pollTrace5]

/-- Computation of the send-resolution step when every exchange
returns and the final listing is empty. -/
theorem send_resolve_empty (o : SendOracle) (ms : Nat → List Msg)
    (hsend : o.sendRes = .ok ()) (hlist : ∀ i, i < 5 → o.listing i = .ok (ms i))
    (he : ms 4 = []) :
    send_resolve o = (Ev.sendCmd :: pollTrace5 ++ [Ev.logError], .ok (PyVal.int (-1))) := by
  have hp := pollSteps_five o.listing ms hlist
  simp [send_resolve, hsend, hp, he]

/-- Computation of the send-resolution step when every exchange
returns and the final listing is non-empty. -/
theorem send_resolve_cons (o : SendOracle) (ms : Nat → List Msg)
    (hsend : o.sendRes = .ok ()) (hlist : ∀ i, i < 5 → o.listing i = .ok (ms i))
    (hdel : o.deleteRes = .ok ()) (m : Msg) (rest : List Msg) (hc : ms 4 = m :: rest) :
    send_resolve o =
      (Ev.sendCmd :: pollTrace5 ++ (if rest.length > 0 then [Ev.logWarning] else []) ++
         [Ev.deleteSms m.Index],
       .ok (PyVal.xmlv m.Index)) := by
  have hp := pollSteps_five o.listing ms hlist
  simp [send_resolve, hsend, hp, hc, hdel]

/-- Bind on a successful Except computes. -/
theorem ok_bind {α β : Type} (a : α) (f : α → Except PyErr β) :
    (Except.ok a : Except PyErr α) >>= f = f a := rfl

/-- Bind on a failed Except propagates the error. -/
theorem error_bind {α β : Type} (e : PyErr) (f : α → Except PyErr β) :
    (Except.error e : Except PyErr α) >>= f = Except.error e := rfl

/-- Map on a successful Except computes. -/
theorem ok_map {α β : Type} (g : α → β) (a : α) :
    g <$> (Except.ok a : Except PyErr α) = Except.ok (g a) := rfl

/-- Map on a failed Except propagates the error. -/
theorem error_map {α β : Type} (g : α → β) (e : PyErr) :
    g <$> (Except.error e : Except PyErr α) = Except.error e := rfl

/-- Pure for Except is ok. -/
theorem pure_eq_ok {α : Type} (a : α) : (pure a : Except PyErr α) = Except.ok a := rfl

/-! Claim theorems. -/

/-- C1: for every send operation, after the fixed retry window the
worker inspects only the final outbox listing (the conclusions depend
only on `ms 4`): when it is non-empty, the result is the first entry's
Index, the trace holds the warning exactly when more than one entry is
present, and exactly one delete — of that first entry — appears; when
it is empty, the trace holds the error log, no delete appears, and the
result is the -1 sentinel (which the public send_sms hands back to its
caller). -/
theorem send_resolve_final_listing (o : SendOracle) (ms : Nat → List Msg)
    (hsend : o.sendRes = .ok ()) (hlist : ∀ i, i < 5 → o.listing i = .ok (ms i))
    (hdel : o.deleteRes = .ok ()) :
    (ms 4 = [] →
      send_resolve o = (Ev.sendCmd :: pollTrace5 ++ [Ev.logError], .ok (PyVal.int (-1)))) ∧
    (∀ m rest, ms 4 = m :: rest →
      send_resolve o =
        (Ev.sendCmd :: pollTrace5 ++ (if rest.length > 0 then [Ev.logWarning] else []) ++
           [Ev.deleteSms m.Index],
         .ok (PyVal.xmlv m.Index))) := by
  constructor
  · intro he
    exact send_resolve_empty o ms hsend hlist he
  · intro m rest hc
    exact send_resolve_cons o ms hsend hlist hdel m rest hc

/-- Witness for C1 at a concrete oracle whose final listing holds one
entry. -/
theorem send_resolve_final_listing_witness :
    send_resolve oOne =
      (Ev.sendCmd :: pollTrace5 ++ [Ev.deleteSms (Xml.str "40001")],
       .ok (PyVal.xmlv (Xml.str "40001"))) := by
  have h := (send_resolve_final_listing oOne msOne rfl (fun i _ => rfl) rfl).2 msgA [] rfl
  simpa [msgA] using h

/-- C2: after the send is issued the worker polls the outbound listing
exactly 5 times, sleeping exactly 1 second immediately before each
list call; when every listing returns, all 5 attempts run to
completion whatever the intermediate listings held, and the loop's
final value is the 5th listing alone. -/
theorem pollSteps_schedule (listing : Nat → Except PyErr (List Msg)) (ms : Nat → List Msg)
    (h : ∀ i, i < 5 → listing i = .ok (ms i)) :
    pollSteps listing 5 0 [] =
      ([Ev.sleep 1, Ev.listOutbox 0, Ev.sleep 1, Ev.listOutbox 1, Ev.sleep 1, Ev.listOutbox 2,
        Ev.sleep 1, Ev.listOutbox 3, Ev.sleep 1, Ev.listOutbox 4], .ok (ms 4)) := by
  simpa [pollTrace5] using pollSteps_five listing ms h

/-- Witness for C2 at a concrete listing schedule. -/
theorem pollSteps_schedule_witness :
    pollSteps (fun i => .ok (msOne i)) 5 0 [] =
      ([Ev.sleep 1, Ev.listOutbox 0, Ev.sleep 1, Ev.listOutbox 1, Ev.sleep 1, Ev.listOutbox 2,
        Ev.sleep 1, Ev.listOutbox 3, Ev.sleep 1, Ev.listOutbox 4], .ok [msgA]) := by
  simpa [msOne] using pollSteps_schedule (fun i => .ok (msOne i)) msOne (fun i _ => rfl)

/-- C10: the send branch's result is the integer -1 exactly when the
final outbox listing is empty; otherwise it is the first entry's Index
value exactly as parsed from the XML — a string — so the success and
failure results differ in type (a string-carrying value is never the
integer sentinel). -/
theorem send_resolve_result_types (o : SendOracle) (ms : Nat → List Msg) (s : String)
    (hsend : o.sendRes = .ok ()) (hlist : ∀ i, i < 5 → o.listing i = .ok (ms i))
    (hdel : o.deleteRes = .ok ()) :
    (ms 4 = [] → (send_resolve o).2 = .ok (PyVal.int (-1))) ∧
    (∀ m rest, ms 4 = m :: rest → m.Index = Xml.str s →
        (send_resolve o).2 = .ok (PyVal.xmlv (Xml.str s))) ∧
    (∀ v, (send_resolve o).2 = .ok v → (v = PyVal.int (-1) ↔ ms 4 = [])) ∧
    (∀ z : Int, PyVal.xmlv (Xml.str s) ≠ PyVal.int z) := by
  refine ⟨?_, ?_, ?_, ?_⟩
  · intro he
    simp [send_resolve_empty o ms hsend hlist he]
  · intro m rest hc hidx
    simp [send_resolve_cons o ms hsend hlist hdel m rest hc, hidx]
  · intro v hv
    cases hms : ms 4 with
    | nil =>
        rw [send_resolve_empty o ms hsend hlist hms] at hv
        simp at hv
        simp [hv]
    | cons m rest =>
        rw [send_resolve_cons o ms hsend hlist hdel m rest hms] at hv
        simp at hv
        subst hv
        simp [hms]
  · intro z
    simp

/-- Witness for C10 at a concrete oracle whose final listing holds one
entry with a string index. -/
theorem send_resolve_result_types_witness :
    (send_resolve oOne).2 = .ok (PyVal.xmlv (Xml.str "40001")) ∧
    PyVal.xmlv (Xml.str "40001") ≠ PyVal.int (-1) := by
  have h := send_resolve_result_types oOne msOne "40001" rfl (fun i _ => rfl) rfl
  exact ⟨h.2.1 msgA [] rfl rfl, h.2.2.2 (-1)⟩

/-- C5 counterexample: a session-token response that is well-formed XML
but lacks the SesInfo field does not make get_session fail — it
returns the pair with None in the cookie position. -/
theorem get_session_missing_field_counterexample :
    b_get_session (.ok (Xml.dict [("response", Xml.dict [("TokInfo", Xml.str "tok")])]))
      = .ok (none, some (Xml.str "tok")) := rfl

/-- C5 (amended): get_session returns the pair read from the response
element; an exception from the transport or the XML parser propagates
unchanged (there is no ProtocolError type in the code); an absent or
empty `response` element raises AttributeError; an absent SesInfo or
TokInfo yields None in that position of the returned pair without any
failure. -/
theorem b_get_session_cases (e : PyErr) (f r : List (String × Xml)) :
    b_get_session (.error e) = .error e ∧
    (optField f "response" = none →
      b_get_session (.ok (Xml.dict f)) = .error PyErr.attributeError) ∧
    (optField f "response" = some (Xml.dict r) →
      b_get_session (.ok (Xml.dict f)) = .ok (optField r "SesInfo", optField r "TokInfo")) := by
  refine ⟨rfl, ?_, ?_⟩
  · intro h
    simp [b_get_session, h, ok_bind]
  · intro h
    simp [b_get_session, h, pyGetOpt, ok_bind, ok_map]

/-- Witness for C5's amended statement at concrete responses. -/
theorem b_get_session_cases_witness :
    b_get_session (Except.error PyErr.expatError) = .error PyErr.expatError ∧
    b_get_session (.ok (Xml.dict [("error", Xml.str "x")])) = .error PyErr.attributeError ∧
    b_get_session (.ok (Xml.dict [("response", Xml.dict [("SesInfo", Xml.str "c")])]))
      = .ok (some (Xml.str "c"), none) := by
  have h1 := (b_get_session_cases PyErr.expatError [("error", Xml.str "x")] []).1
  have h2 := (b_get_session_cases PyErr.expatError [("error", Xml.str "x")] []).2.1 rfl
  have h3 := (b_get_session_cases PyErr.expatError [("response", Xml.dict [("SesInfo", Xml.str "c")])]
      [("SesInfo", Xml.str "c")]).2.2 rfl
  exact ⟨h1, h2, h3⟩

/-- C6 counterexample: a transport failure during the delete POST is
raised to b_delete_sms's caller, not swallowed. -/
theorem delete_sms_error_counterexample :
    b_delete_sms goodSess (.error PyErr.connectionError) = .error PyErr.connectionError := rfl

/-- C6 (amended): delete_message is not fire-and-forget — it has no
exception handler, so a failing session fetch, a network failure or a
malformed XML response during the delete propagates as an exception to
the caller. -/
theorem b_delete_sms_propagates (sess r : Except PyErr Xml) (e : PyErr)
    (p : Option Xml × Option Xml) :
    (b_get_session sess = .ok p → b_delete_sms sess (.error e) = .error e) ∧
    b_delete_sms (.error e) r = .error e := by
  constructor
  · intro h
    simp [b_delete_sms, h, ok_bind]
  · rfl

/-- Witness for C6's amended statement: a malformed XML reply to the
delete POST raises to the caller. -/
theorem b_delete_sms_propagates_witness :
    b_delete_sms goodSess (.error PyErr.expatError) = .error PyErr.expatError := by
  exact (b_delete_sms_propagates goodSess (.ok Xml.null) PyErr.expatError
    (some (Xml.str "c"), some (Xml.str "t"))).1 rfl

/-- C7 counterexample: in the inbox-poller's listing path
(get_sms_list of src/playsms_hilink_driver.py) an absent content is
NOT replaced by a space and no re-decoding happens — the message comes
back with its content still None, and a mis-transported string
unchanged. -/
theorem driver_content_counterexample :
    get_sms_list goodSess
        (.ok (mkListResp (mkMsgXml (Xml.str "40000") (Xml.str "070") (Xml.str "1") Xml.null)))
      = .ok [⟨Xml.str "40000", Xml.str "070", Xml.str "1", Xml.null⟩] ∧
    get_sms_list goodSess
        (.ok (mkListResp (mkMsgXml (Xml.str "40000") (Xml.str "070") (Xml.str "1") (Xml.str "Ã¥"))))
      = .ok [⟨Xml.str "40000", Xml.str "070", Xml.str "1", Xml.str "Ã¥"⟩] := ⟨rfl, rfl⟩

/-- C7 (amended): only the listing of src/lib_usb_modem.py
(b_get_sms_list) replaces an absent content with a single space and
re-decodes the content from latin-1 as UTF-8 with undecodable
sequences discarded; the inbox-poller's listing path
(get_sms_list of src/playsms_hilink_driver.py) performs neither
transformation. -/
theorem listing_content_clean_up (idx ph : Xml) (s : String) (bs : List Nat)
    (henc : latin1Encode s = .ok bs) :
    b_get_sms_list goodSess (.ok (mkListResp (mkMsgXml idx ph (Xml.str "1") Xml.null)))
      = .ok [⟨idx, ph, Xml.str "1", Xml.str " "⟩] ∧
    b_get_sms_list goodSess (.ok (mkListResp (mkMsgXml idx ph (Xml.str "1") (Xml.str s))))
      = .ok [⟨idx, ph, Xml.str "1", Xml.str (String.mk (utf8DecodeIgnore bs))⟩] ∧
    get_sms_list goodSess (.ok (mkListResp (mkMsgXml idx ph (Xml.str "1") Xml.null)))
      = .ok [⟨idx, ph, Xml.str "1", Xml.null⟩] ∧
    get_sms_list goodSess (.ok (mkListResp (mkMsgXml idx ph (Xml.str "1") (Xml.str s))))
      = .ok [⟨idx, ph, Xml.str "1", Xml.str s⟩] := by
  refine ⟨rfl, ?_, rfl, rfl⟩
  simp [b_get_sms_list, get_sms_list_core, goodSess, b_get_session, mkListResp, mkMsgXml,
        pyIndex, pyContains, xmlAssoc, optField, pyGetOpt, extract_list, b_extract, pyEqStr,
        fixContent, henc, ok_bind, ok_map]

/-- Witness for C7's amended statement: a Swedish å mis-transported as
the latin-1 pair A-tilde, yen is recovered by the lib path and left
broken by the driver path. -/
theorem listing_content_clean_up_witness :
    latin1Encode "Ã¥" = .ok [195, 165] ∧
    b_get_sms_list goodSess
        (.ok (mkListResp (mkMsgXml (Xml.str "40000") (Xml.str "070") (Xml.str "1") (Xml.str "Ã¥"))))
      = .ok [⟨Xml.str "40000", Xml.str "070", Xml.str "1", Xml.str "å"⟩] := by
  refine ⟨rfl, ?_⟩
  exact ((listing_content_clean_up (Xml.str "40000") (Xml.str "070") "Ã¥" [195, 165] rfl).2.1).trans
    (by rfl)

/-- Helper: the listing loop over messages whose extraction never
raises collects exactly the non-filtered extractions, in order. -/
theorem extract_list_ok (fixEnc : Bool) (ms : List Xml)
    (hms : ∀ m ∈ ms, ∃ o, b_extract fixEnc m = .ok o) :
    extract_list fixEnc ms = .ok (ms.filterMap (extractVal fixEnc)) := by
  induction ms with
  | nil => rfl
  | cons m rest ih =>
      obtain ⟨o, ho⟩ := hms m (by simp)
      have ihr := ih (fun m2 hm2 => hms m2 (by simp [hm2]))
      cases o with
      | none => simp [extract_list, ho, ihr, extractVal, ok_bind]
      | some msg => simp [extract_list, ho, ihr, extractVal, ok_bind]

/-- C8: for every listing response (both listing paths, via
get_sms_list_core): a response whose Message element is a single
non-sequence value gives the same result as the one-element sequence
holding it, and — when no extraction raises — a message contributes an
entry to the result exactly when its SmsType marker is the string '1';
all other markers are dropped. -/
theorem get_sms_list_normalize_filter (fixEnc : Bool) (sess : Except PyErr Xml)
    (p : Option Xml × Option Xml) (hs : b_get_session sess = .ok p)
    (x : Xml) (hx : ∀ xs, x ≠ Xml.list xs)
    (ms : List Xml) (hms : ∀ m ∈ ms, ∃ o, b_extract fixEnc m = .ok o) :
    get_sms_list_core fixEnc sess (.ok (mkListResp x))
        = get_sms_list_core fixEnc sess (.ok (mkListResp (Xml.list [x]))) ∧
    get_sms_list_core fixEnc sess (.ok (mkListResp (Xml.list ms)))
        = .ok (ms.filterMap (extractVal fixEnc)) ∧
    ∀ m ∈ ms, ((extractVal fixEnc m).isSome ↔ pyIndex m "SmsType" = .ok (Xml.str "1")) := by
  refine ⟨?_, ?_, ?_⟩
  · cases x with
    | str s => rfl
    | null => rfl
    | dict fields => rfl
    | list xs => exact absurd rfl (hx xs)
  · simp [get_sms_list_core, hs, mkListResp, pyIndex, pyContains, xmlAssoc, ok_bind,
          extract_list_ok fixEnc ms hms]
  · intro m hm
    obtain ⟨o, ho⟩ := hms m hm
    have hval : extractVal fixEnc m = o := by simp [extractVal, ho]
    rcases hpy : pyIndex m "SmsType" with e | t
    · have hbe : b_extract fixEnc m = .error e := by
        simp [b_extract, hpy, error_bind]
      rw [hbe] at ho
      simp at ho
    · by_cases hq : t = Xml.str "1"
      · subst hq
        rcases hIdx : pyIndex m "Index" with e1 | idx
        · have hbe : b_extract fixEnc m = .error e1 := by
            simp [b_extract, hpy, hIdx, pyEqStr, ok_bind, error_bind]
          rw [hbe] at ho
          simp at ho
        · rcases hPh : pyIndex m "Phone" with e2 | ph
          · have hbe : b_extract fixEnc m = .error e2 := by
              simp [b_extract, hpy, hIdx, hPh, pyEqStr, ok_bind, error_bind]
            rw [hbe] at ho
            simp at ho
          · rcases hC : pyIndex m "Content" with e3 | c
            · have hbe : b_extract fixEnc m = .error e3 := by
                simp [b_extract, hpy, hIdx, hPh, hC, pyEqStr, ok_bind, error_bind]
              rw [hbe] at ho
              simp at ho
            · cases fixEnc with
              | false =>
                  have hbe : b_extract false m
                      = .ok (some ⟨idx, ph, Xml.str "1", c⟩) := by
                    simp [b_extract, hpy, hIdx, hPh, hC, pyEqStr, ok_bind, pure_eq_ok]
                  rw [hbe] at ho
                  injection ho with h2
                  rw [hval, ← h2]
                  simp [hpy]
              | true =>
                  rcases hfc : fixContent c with e4 | c2
                  · have hbe : b_extract true m = .error e4 := by
                      simp [b_extract, hpy, hIdx, hPh, hC, hfc, pyEqStr, ok_bind,
                            error_map]
                    rw [hbe] at ho
                    simp at ho
                  · have hbe : b_extract true m
                        = .ok (some ⟨idx, ph, Xml.str "1", c2⟩) := by
                      simp [b_extract, hpy, hIdx, hPh, hC, hfc, pyEqStr, ok_bind,
                            ok_map]
                    rw [hbe] at ho
                    injection ho with h2
                    rw [hval, ← h2]
                    simp [hpy]
      · have hq2 : pyEqStr t "1" = false := by
          cases t with
          | str a =>
              simp [pyEqStr]
              exact fun h => hq (by rw [h])
          | null => rfl
          | dict f => rfl
          | list l => rfl
        have hbe : b_extract fixEnc m = .ok none := by
          simp [b_extract, hpy, hq2, ok_bind, pure_eq_ok]
        rw [hbe] at ho
        injection ho with h2
        rw [hval, ← h2]
        simp [hpy, hq]

/-- Witness for C8 at a concrete response holding one plain SMS and one
status report. -/
theorem get_sms_list_normalize_filter_witness :
    get_sms_list_core true goodSess
        (.ok (mkListResp (mkMsgXml (Xml.str "40002") (Xml.str "070") (Xml.str "1") (Xml.str "hi"))))
      = get_sms_list_core true goodSess
          (.ok (mkListResp (Xml.list
            [mkMsgXml (Xml.str "40002") (Xml.str "070") (Xml.str "1") (Xml.str "hi")]))) ∧
    get_sms_list_core true goodSess
        (.ok (mkListResp (Xml.list
          [mkMsgXml (Xml.str "40002") (Xml.str "070") (Xml.str "1") (Xml.str "hi"),
           mkMsgXml (Xml.str "40003") (Xml.str "070") (Xml.str "2") (Xml.str "rpt")])))
      = .ok [⟨Xml.str "40002", Xml.str "070", Xml.str "1", Xml.str "hi"⟩] := by
  have h := get_sms_list_normalize_filter true goodSess
      (some (Xml.str "c"), some (Xml.str "t")) rfl
      (mkMsgXml (Xml.str "40002") (Xml.str "070") (Xml.str "1") (Xml.str "hi"))
      (by intro xs; simp [mkMsgXml])
      [mkMsgXml (Xml.str "40002") (Xml.str "070") (Xml.str "1") (Xml.str "hi"),
       mkMsgXml (Xml.str "40003") (Xml.str "070") (Xml.str "2") (Xml.str "rpt")]
      (by
        intro m hm
        simp only [List.mem_cons, List.not_mem_nil, or_false] at hm
        rcases hm with rfl | rfl
        · exact ⟨some ⟨Xml.str "40002", Xml.str "070", Xml.str "1", Xml.str "hi"⟩, rfl⟩
        · exact ⟨none, rfl⟩)
  refine ⟨h.1, h.2.1.trans ?_⟩
  rfl

/-- Helper: the per-message forward-then-delete loop under an oracle
whose forwards and deletes all return produces exactly one forward
event per message, each immediately followed by that message's delete,
whatever the forwarded response strings are. -/
theorem poll_msgs_ok (fwd : Nat → Except PyErr String) (del : Nat → Except PyErr Xml)
    (hf : ∀ j, ∃ s, fwd j = .ok s) (hd : ∀ j, ∃ x, del j = .ok x) :
    ∀ (ms : List Msg) (j : Nat),
      poll_msgs fwd del ms j =
        ((ms.map (fun m =>
            [PEv.forwardSms m.Index m.Phone m.Content, PEv.deleteSms m.Index])).flatten,
         none) := by
  intro ms
  induction ms with
  | nil => intro j; rfl
  | cons m rest ih =>
      intro j
      obtain ⟨s, hs⟩ := hf j
      obtain ⟨x, hx⟩ := hd j
      simp [poll_msgs, hs, hx, ih (j + 1)]

/-- C9: on each inbox-poll cycle the poller lists the inbound box and,
for each returned message, forwards it once to playsms carrying its
Index, Phone and Content, then issues that message's delete
immediately after the forward call returns — the trace does not depend
on the platform's response values — and ends the cycle with the fixed
sleep(10); the cycles repeat. -/
theorem poll_forward_then_delete (o : PollOracle) (ms : Nat → List Msg)
    (hl : ∀ c, o.listing c = .ok (ms c))
    (hf : ∀ c j, ∃ s, o.fwd c j = .ok s)
    (hd : ∀ c j, ∃ x, o.del c j = .ok x) :
    ∀ (n c : Nat),
      poll_receive_sms o n c =
        (((List.range n).map (fun i =>
            PEv.listInbox ::
              ((ms (c + i)).map (fun m =>
                [PEv.forwardSms m.Index m.Phone m.Content, PEv.deleteSms m.Index])).flatten
              ++ [PEv.sleep 10])).flatten,
         none) := by
  intro n
  induction n with
  | zero => intro c; rfl
  | succ k ih =>
      intro c
      have hmsgs := poll_msgs_ok (o.fwd c) (o.del c) (hf c) (hd c) (ms c) 0
      simp [poll_receive_sms, hl c, hmsgs, ih (c + 1), List.range_succ_eq_map,
            List.map_map, Function.comp_def, Nat.succ_eq_add_one, Nat.add_assoc,
            Nat.add_comm, Nat.add_left_comm]

/-- Witness for C9: two cycles with one inbound message each. -/
theorem poll_forward_then_delete_witness :
    poll_receive_sms pOracle 2 0 =
      ([PEv.listInbox,
        PEv.forwardSms (Xml.str "40001") (Xml.str "0722060322") (Xml.str "hello"),
        PEv.deleteSms (Xml.str "40001"), PEv.sleep 10,
        PEv.listInbox,
        PEv.forwardSms (Xml.str "40001") (Xml.str "0722060322") (Xml.str "hello"),
        PEv.deleteSms (Xml.str "40001"), PEv.sleep 10],
       none) := by
  have h := poll_forward_then_delete pOracle (fun _ => [msgA]) (fun c => rfl)
      (fun c j => ⟨"OK", rfl⟩) (fun c j => ⟨Xml.str "OK", rfl⟩) 2 0
  simpa [msgA, List.range_succ] using h

/-- C4 counterexample: with two listing work items queued, an exception
raised by the first item's modem exchange ends the worker loop with no
reply posted and the second item never processed, while the same queue
under a working modem yields both replies — the loop does not continue
to the next WorkItem after an error. -/
theorem worker_error_counterexample :
    background_worker execFail [TaskAction.list_received, TaskAction.list_received] 0
      = ([], [], WorkerEnd.crashed PyErr.connectionError) ∧
    background_worker execOk [TaskAction.list_received, TaskAction.list_received] 0
      = ([TaskRes.msgs [], TaskRes.msgs []], [Ev.listOutbox 0, Ev.listOutbox 1],
         WorkerEnd.drained) := ⟨rfl, rfl⟩

/-- C4 (amended): the worker loop has no exception handler — when a
modem-facing task body raises, no reply is posted for it, no later
WorkItem is processed, and the worker process dies with that
exception. -/
theorem background_worker_stops_on_error
    (exec : Nat → TaskAction → List Ev × Except PyErr TaskRes)
    (t : TaskAction) (ts : List TaskAction) (k : Nat) (trc : List Ev) (e : PyErr)
    (hm : isModemTask t = true) (hx : exec k t = (trc, .error e)) :
    background_worker exec (t :: ts) k = ([], trc, WorkerEnd.crashed e) := by
  cases t <;> simp_all [background_worker, isModemTask]

/-- Witness for C4's amended statement at a concrete failing oracle. -/
theorem background_worker_stops_on_error_witness :
    background_worker execFail [TaskAction.send ["0722060322"] "hello"] 0
      = ([], [], WorkerEnd.crashed PyErr.connectionError) :=
  background_worker_stops_on_error execFail (TaskAction.send ["0722060322"] "hello") [] 0 []
    PyErr.connectionError rfl rfl

/-- C3 counterexample: in src/playsms_hilink_driver.py the HTTP send
handler and the inbox poller do not go through any task queue — they
call the modem directly from unsynchronized threads, so the trace in
which the poller's delete overlaps an in-flight send (each operation's
session GET separated from its POST by the other thread's request) is
reachable and violates mutual exclusion. -/
theorem driver_overlap_counterexample :
    ([⟨ThreadId.httpHandler, ModemCall.sesTokGet⟩, ⟨ThreadId.inboxPoller, ModemCall.sesTokGet⟩,
      ⟨ThreadId.httpHandler, ModemCall.sendSmsPost⟩,
      ⟨ThreadId.inboxPoller, ModemCall.deleteSmsPost⟩] ∈ driver_concurrent_traces) ∧
    serializedTrace
      [⟨ThreadId.httpHandler, ModemCall.sesTokGet⟩, ⟨ThreadId.inboxPoller, ModemCall.sesTokGet⟩,
       ⟨ThreadId.httpHandler, ModemCall.sendSmsPost⟩,
       ⟨ThreadId.inboxPoller, ModemCall.deleteSmsPost⟩] = false := by
  decide

/-- C3 (amended): WorkItems submitted to lib_usb_modem's task queue are
executed by the single background worker strictly one after another in
FIFO submission order — the reply sequence and the concatenation of
the per-task modem traces follow the submission order with no
interleaving; but this serialization covers only that queue: the
driver file's HTTP send handler and inbox poller bypass it (see the
counterexample), so it is not global mutual exclusion across all
callers. -/
theorem background_worker_fifo (exec : Nat → TaskAction → List Ev × Except PyErr TaskRes) :
    ∀ (ts : List TaskAction) (k : Nat) (tr : Nat → List Ev) (v : Nat → TaskRes),
    (∀ i, (h : i < ts.length) → isModemTask ts[i] = true) →
    (∀ i, (h : i < ts.length) → exec (k + i) ts[i] = (tr (k + i), .ok (v (k + i)))) →
    background_worker exec ts k =
      ((List.range ts.length).map (fun i => v (k + i)),
       ((List.range ts.length).map (fun i => tr (k + i))).flatten,
       WorkerEnd.drained) := by
  intro ts
  induction ts with
  | nil =>
      intro k tr v hmod hexec
      rfl
  | cons t rest ih =>
      intro k tr v hmod hexec
      have hm0 : isModemTask t = true := by simpa using hmod 0 (by simp)
      have he0 : exec k t = (tr k, .ok (v k)) := by simpa using hexec 0 (by simp)
      have ihr := ih (k + 1) tr v
        (fun i h => by simpa using hmod (i + 1) (by simpa using Nat.succ_lt_succ h))
        (fun i h => by
          have hx := hexec (i + 1) (by simpa using Nat.succ_lt_succ h)
          simpa [Nat.add_assoc, Nat.add_comm, Nat.add_left_comm] using hx)
      cases t with
      | list_received =>
          simp [background_worker, he0, ihr, List.range_succ_eq_map, List.map_map,
                Function.comp_def, Nat.succ_eq_add_one, Nat.add_assoc, Nat.add_comm,
                Nat.add_left_comm]
      | list_sent =>
          simp [background_worker, he0, ihr, List.range_succ_eq_map, List.map_map,
                Function.comp_def, Nat.succ_eq_add_one, Nat.add_assoc, Nat.add_comm,
                Nat.add_left_comm]
      | send numbers text =>
          simp [background_worker, he0, ihr, List.range_succ_eq_map, List.map_map,
                Function.comp_def, Nat.succ_eq_add_one, Nat.add_assoc, Nat.add_comm,
                Nat.add_left_comm]
      | delete idx =>
          simp [background_worker, he0, ihr, List.range_succ_eq_map, List.map_map,
                Function.comp_def, Nat.succ_eq_add_one, Nat.add_assoc, Nat.add_comm,
                Nat.add_left_comm]
      | receive => simp [isModemTask] at hm0
      | stop => simp [isModemTask] at hm0
      | unknown s => simp [isModemTask] at hm0

/-- Witness for C3's amended statement: two queued items are executed
in order and their replies and traces come back in submission order. -/
theorem background_worker_fifo_witness :
    background_worker execOk [TaskAction.list_received, TaskAction.send ["07"] "x"] 0
      = ([TaskRes.msgs [], TaskRes.msgs []], [Ev.listOutbox 0, Ev.listOutbox 1],
         WorkerEnd.drained) := by
  have h := background_worker_fifo execOk [TaskAction.list_received, TaskAction.send ["07"] "x"]
      0 (fun i => [Ev.listOutbox i]) (fun _ => TaskRes.msgs [])
      (by
        intro i h
        match i with
        | 0 => rfl
        | 1 => rfl
        | i + 2 => exact absurd h (by simp)
        )
      (by
        intro i h
        match i with
        | 0 => rfl
        | 1 => rfl
        | i + 2 => exact absurd h (by simp)
        )
  simpa [List.range_succ] using h
